import Mathlib

/-!
# storage/s3.go: the S3 object store adapter

A shallow embedding of `src/storage/s3.go`.  The Go code is stateful: it keeps
two package variables (`client`, `s3err`), reads the configured bucket name and
talks to the AWS SDK.  Every function is therefore a transformer of an explicit
process state `Proc`, and the SDK (with the service behind it) is a parameter
`SDK σ` whose answers are arbitrary functions of an external state `σ`.

Go values are kept as they are in the source:
* a `(T, error)` result is a pair of `Option`s (`none` is Go's `nil`);
* a `*s3Client` is an `Option s3Client`, the struct carrying the address it was
  allocated at, so that "the identical instance" is an equality of pointers;
* a panic (`session.Must`, a nil dereference) is the `panicked` outcome.
-/

namespace Storage

/-- A byte slice `[]byte`. -/
abbrev Bytes := List (Fin 256)

/-- A Go `error` value.  `awserr` is an error that implements `awserr.Error`
(`Code()` is `code`, `Error()` is `text`); `plain` is any other error. -/
inductive GoError where
  | awserr (code : String) (text : String)
  | plain (text : String)
  deriving DecidableEq

/-- The method `Error()` of an error value. -/
def GoError.Error : GoError → String
  | .awserr _ text => text
  | .plain text => text

/-- The constant `s3.ErrCodeBucketAlreadyExists` of the SDK. -/
def ErrCodeBucketAlreadyExists : String := "BucketAlreadyExists"

/-- The constant `s3.ErrCodeBucketAlreadyOwnedByYou` of the SDK. -/
def ErrCodeBucketAlreadyOwnedByYou : String := "BucketAlreadyOwnedByYou"

/-- The constant `s3.ErrCodeNoSuchKey` of the SDK. -/
def ErrCodeNoSuchKey : String := "NoSuchKey"

/-- The value a nil pointer dereference panics with. -/
def nilDereference : GoError :=
  .plain "runtime error: invalid memory address or nil pointer dereference"

/-- A session built by `session.NewSessionWithOptions`. -/
structure Session where
  id : Nat
  deriving DecidableEq

/-- One call made on the SDK; `Proc.calls` lists them in the order made. -/
inductive Call where
  | createBucket (bucket : String)
  | upload (bucket key : String) (body : Bytes)
  | download (bucket key : String)
  | getObject (bucket key : String)
  deriving DecidableEq

/-- A line handed to the logger: `errorf s` is `log.Errorf(s)`, `error s` is
`log.Error(s)`. -/
inductive LogEntry where
  | errorf (format : String)
  | error (msg : String)
  deriving DecidableEq

/-- The struct `s3Client`.  `client`, `uploader` and `downloader` are the SDK
objects built on the session; `addr` is the address the struct was allocated
at. -/
structure s3Client where
  addr : Nat
  client : Session
  uploader : Session
  downloader : Session
  bucket : String
  deriving DecidableEq

/-- The struct `s3Object`; `s3client` is a pointer and may be nil. -/
structure s3Object where
  fileName : String
  s3client : Option s3Client
  deriving DecidableEq

/-- The state of the process.
* `S3Bucket` is what `cfg.Config().S3Bucket()` returns (the `cfg` package is
  not part of `storage`; nothing in `s3.go` writes the configuration);
* `client` and `s3err` are the two package variables;
* `ext` is the state of the world behind the SDK;
* `allocs` counts the `s3Client` structs allocated so far (the next address);
* `calls` and `log` record the SDK calls made and the lines logged. -/
structure Proc (σ : Type) where
  S3Bucket : String
  client : Option s3Client
  s3err : Option GoError
  ext : σ
  allocs : Nat
  calls : List Call
  log : List LogEntry

/-- How a call ends: it returns a value, or it panics; both leave a state. -/
inductive Outcome (σ α : Type) where
  | ret (a : α) (p : Proc σ)
  | panicked (e : GoError) (p : Proc σ)

/-- The SDK and the service behind it.  Every answer is an arbitrary function
of the external state and the arguments, and may change the external state.
`Download` answers with the bytes it wrote into the caller's buffer and an
error; the bytes may be a part of the object when the error is not nil. -/
structure SDK (σ : Type) where
  NewSessionWithOptions : σ → Except GoError Session × σ
  CreateBucket : σ → Session → String → Option GoError × σ
  Upload : σ → Session → String → String → Bytes → Option GoError × σ
  Download : σ → Session → String → String → (Bytes × Option GoError) × σ
  GetObject : σ → Session → String → String → Option GoError × σ

variable {σ : Type}

/-- The line `newS3Client` logs for a failed `CreateBucket` (the type switch on
`awserr.Error` and the switch on its code). -/
def createBucketLog (bucket : String) (err : GoError) : LogEntry :=
  match err with
  | .awserr code _ =>
    if code = ErrCodeBucketAlreadyExists then
      .errorf (bucket ++ " bucket already exits")
    else if code = ErrCodeBucketAlreadyOwnedByYou then
      .errorf (bucket ++ " bucket already created")
    else
      .error err.Error
  | .plain _ => .error err.Error

/-- The function `newS3Client`. -/
def newS3Client (sdk : SDK σ) (p : Proc σ) :
    Outcome σ (Option s3Client × Option GoError) :=
  match sdk.NewSessionWithOptions p.ext with
  | (.error e, w) => .panicked e { p with ext := w }
  | (.ok sess, w) =>
    let bucketInput := p.S3Bucket
    match sdk.CreateBucket w sess bucketInput with
    | (some err, w1) =>
      .ret (none, some err)
        { p with ext := w1
                 calls := p.calls ++ [.createBucket bucketInput]
                 log := p.log ++ [createBucketLog p.S3Bucket err] }
    | (none, w1) =>
      .ret (some { addr := p.allocs, client := sess, uploader := sess,
                   downloader := sess, bucket := p.S3Bucket }, none)
        { p with ext := w1
                 calls := p.calls ++ [.createBucket bucketInput]
                 allocs := p.allocs + 1 }

/-- The function `getS3Client`. -/
def getS3Client (sdk : SDK σ) (p : Proc σ) :
    Outcome σ (Option s3Client × Option GoError) :=
  match p.client with
  | none =>
    match newS3Client sdk p with
    | .panicked e p1 => .panicked e p1
    | .ret (c, err) p1 =>
      let p2 := { p1 with client := c, s3err := err }
      match p2.s3err with
      | some e => .ret (none, some e) p2
      | none => .ret (p2.client, none) p2
  | some c => .ret (some c, none) p

/-- The function `NewS3Object`. -/
def NewS3Object (sdk : SDK σ) (fileName : String) (p : Proc σ) :
    Outcome σ (Option s3Object × Option GoError) :=
  match getS3Client sdk p with
  | .panicked e p1 => .panicked e p1
  | .ret (client, err) p1 =>
    match err with
    | some e => .ret (none, some e) p1
    | none => .ret (some { fileName := fileName, s3client := client }, none) p1

/-- The method `FileName`. -/
def s3Object.FileName (o : s3Object) : String :=
  o.fileName

/-- The method `Write`. -/
def s3Object.Write (sdk : SDK σ) (o : s3Object) (data : Bytes) (p : Proc σ) :
    Outcome σ (Option GoError) :=
  match o.s3client with
  | none => .panicked nilDereference p
  | some c =>
    match sdk.Upload p.ext c.uploader c.bucket o.FileName data with
    | (some err, w) =>
      .ret (some err)
        { p with ext := w, calls := p.calls ++ [.upload c.bucket o.FileName data] }
    | (none, w) =>
      .ret none
        { p with ext := w, calls := p.calls ++ [.upload c.bucket o.FileName data] }

/-- The method `Read`.  The buffer starts as the empty, non-nil slice and holds
what `Download` wrote into it; it is returned only when there is no error. -/
def s3Object.Read (sdk : SDK σ) (o : s3Object) (p : Proc σ) :
    Outcome σ (Option Bytes × Option GoError) :=
  match o.s3client with
  | none => .panicked nilDereference p
  | some c =>
    match sdk.Download p.ext c.downloader c.bucket o.FileName with
    | ((_, some err), w) =>
      .ret (none, some err)
        { p with ext := w, calls := p.calls ++ [.download c.bucket o.FileName] }
    | ((buf, none), w) =>
      .ret (some buf, none)
        { p with ext := w, calls := p.calls ++ [.download c.bucket o.FileName] }

/-- The line `Exists` logs for a failed probe. -/
def existsLog (fileName : String) (err : GoError) : LogEntry :=
  match err with
  | .awserr code _ =>
    if code = ErrCodeNoSuchKey then
      .errorf (ErrCodeNoSuchKey ++ " error: the key '" ++ fileName ++ "' does not exist")
    else
      .error err.Error
  | .plain _ => .error err.Error

/-- The method `Exists`. -/
def s3Object.Exists (sdk : SDK σ) (o : s3Object) (p : Proc σ) : Outcome σ Bool :=
  match o.s3client with
  | none => .panicked nilDereference p
  | some c =>
    match sdk.GetObject p.ext c.client c.bucket o.FileName with
    | (some err, w) =>
      .ret false
        { p with ext := w
                 calls := p.calls ++ [.getObject c.bucket o.FileName]
                 log := p.log ++ [existsLog o.FileName err] }
    | (none, w) =>
      .ret true
        { p with ext := w, calls := p.calls ++ [.getObject c.bucket o.FileName] }

/-- The value a call returned; `none` when it panicked. -/
def Outcome.value {α : Type} : Outcome σ α → Option α
  | .ret a _ => some a
  | .panicked _ _ => none

/-- The state a call left. -/
def Outcome.state {α : Type} : Outcome σ α → Proc σ
  | .ret _ p => p
  | .panicked _ p => p

/-! ## Fixtures: a scripted service and a map service -/

/-- A scripted service for `CreateBucket`: the external state lists the answers
the coming `CreateBucket` calls get, one per call (`none` is success, and so is
every call after the list is used up).  Sessions are always built; the object
calls succeed on nothing stored. -/
def scriptedSDK : SDK (List (Option GoError)) where
  NewSessionWithOptions := fun s => (.ok ⟨1⟩, s)
  CreateBucket := fun s _ _ => (s.head?.join, s.tail)
  Upload := fun s _ _ _ _ => (none, s)
  Download := fun s _ _ _ => (([], none), s)
  GetObject := fun s _ _ _ => (none, s)

/-- A fresh process: no client yet, nothing called, nothing logged. -/
def freshProc {τ : Type} (bucket : String) (w : τ) : Proc τ :=
  { S3Bucket := bucket, client := none, s3err := none, ext := w,
    allocs := 0, calls := [], log := [] }

/-- The error the service answers when the bucket is already owned by the
caller. -/
def errOwned : GoError :=
  .awserr ErrCodeBucketAlreadyOwnedByYou
    "BucketAlreadyOwnedByYou: Your previous request to create the named bucket succeeded and you already own it."

/-- A service whose downloads break off after two bytes were written into the
buffer. -/
def brokenDownloadSDK : SDK Unit where
  NewSessionWithOptions := fun s => (.ok ⟨1⟩, s)
  CreateBucket := fun s _ _ => (none, s)
  Upload := fun s _ _ _ _ => (none, s)
  Download := fun s _ _ _ =>
    (([0x25, 0x50], some (.plain "read: connection reset by peer")), s)
  GetObject := fun s _ _ _ => (none, s)

/-- The error the service answers for a key that is not stored. -/
def errNoSuchKey : GoError :=
  .awserr ErrCodeNoSuchKey "NoSuchKey: The specified key does not exist."

/-- The content of the map service: the body stored under (bucket, key). -/
abbrev Store := String → String → Option Bytes

/-- The store after `body` is stored under (bucket, key). -/
def Store.put (s : Store) (bucket key : String) (body : Bytes) : Store :=
  fun b k => if b = bucket ∧ k = key then some body else s b k

/-- The map service: a successful upload stores the body under (bucket, key),
a download returns what is stored, the probe succeeds exactly on stored keys.
`refuse` says which uploads the service refuses, and with which error; a
refused upload stores nothing. -/
def mapSDK (refuse : String → String → Bytes → Option GoError) : SDK Store where
  NewSessionWithOptions := fun s => (.ok ⟨1⟩, s)
  CreateBucket := fun s _ _ => (none, s)
  Upload := fun s _ b k body =>
    match refuse b k body with
    | some e => (some e, s)
    | none => (none, s.put b k body)
  Download := fun s _ b k =>
    match s b k with
    | some body => ((body, none), s)
    | none => (([], some errNoSuchKey), s)
  GetObject := fun s _ b k =>
    match s b k with
    | some _ => (none, s)
    | none => (some errNoSuchKey, s)

/-- The empty store. -/
def emptyStore : Store := fun _ _ => none

/-- A service that refuses the empty key and every body of more than four
bytes, and accepts every other upload. -/
def refuseEmptyKey : String → String → Bytes → Option GoError :=
  fun _ k body =>
    if k = "" then some (.plain "InvalidArgument: empty key")
    else if 4 < body.length then some (.awserr "EntityTooLarge" "EntityTooLarge: body too large")
    else none

/-! ## Callers -/

/-- A caller that calls `getS3Client` `n` times in a row and collects what the
calls return. -/
def getS3ClientTimes (sdk : SDK σ) :
    Nat → Proc σ → Outcome σ (List (Option s3Client × Option GoError))
  | 0, p => .ret [] p
  | n + 1, p =>
    match getS3Client sdk p with
    | .panicked e p1 => .panicked e p1
    | .ret r p1 =>
      match getS3ClientTimes sdk n p1 with
      | .panicked e p2 => .panicked e p2
      | .ret rs p2 => .ret (r :: rs) p2

/-- An operation of a caller on a handle for `key`. -/
inductive Op where
  | write (key : String) (data : Bytes)
  | read (key : String)
  | probe (key : String)

/-- The state after the operation, made on a handle of the client `c`. -/
def Op.run (sdk : SDK σ) (c : s3Client) : Op → Proc σ → Proc σ
  | .write key data, p => (s3Object.Write sdk ⟨key, some c⟩ data p).state
  | .read key, p => (s3Object.Read sdk ⟨key, some c⟩ p).state
  | .probe key, p => (s3Object.Exists sdk ⟨key, some c⟩ p).state

/-- Whether the operation is a `Write` to `key` that returns nil. -/
def Op.wrote (sdk : SDK σ) (c : s3Client) (key : String) : Op → Proc σ → Bool
  | .write key1 data, p =>
    key1 = key && (s3Object.Write sdk ⟨key1, some c⟩ data p).value = some none
  | .read _, _ => false
  | .probe _, _ => false

/-- The state after the operations, made one after the other. -/
def runOps (sdk : SDK σ) (c : s3Client) : List Op → Proc σ → Proc σ
  | [], p => p
  | op :: ops, p => runOps sdk c ops (op.run sdk c p)

/-- Whether some `Write` to `key` returns nil while the operations run. -/
def anyWrote (sdk : SDK σ) (c : s3Client) (key : String) : List Op → Proc σ → Bool
  | [], _ => false
  | op :: ops, p => op.wrote sdk c key p || anyWrote sdk c key ops (op.run sdk c p)

/-! # Theorems -/

/-! ## newS3Client: a failed CreateBucket -/

/-- C5. When `CreateBucket` fails with any error `e` (a provider error with the
code BucketAlreadyExists or BucketAlreadyOwnedByYou, another provider code, or
an error that is no provider error), `newS3Client` returns a nil client with
`e` itself, and so does `getS3Client` on that attempt (`client == nil`). -/
theorem newS3Client_createBucket_error (sdk : SDK σ) (p : Proc σ) (sess : Session)
    (w w1 : σ) (e : GoError)
    (hs : sdk.NewSessionWithOptions p.ext = (.ok sess, w))
    (hc : sdk.CreateBucket w sess p.S3Bucket = (some e, w1)) :
    (newS3Client sdk p).value = some (none, some e) ∧
    (p.client = none → (getS3Client sdk p).value = some (none, some e)) := by
  have hn : newS3Client sdk p = .ret (none, some e)
      { p with ext := w1
               calls := p.calls ++ [.createBucket p.S3Bucket]
               log := p.log ++ [createBucketLog p.S3Bucket e] } := by
    simp only [newS3Client, hs, hc]
  refine ⟨by rw [hn]; rfl, fun hnil => ?_⟩
  simp only [getS3Client, hnil, hn, Outcome.value]

/-- C5 at the scenario of the specification: bucket "reports", the service
answers "already owned by you". -/
theorem newS3Client_createBucket_error_witness :
    scriptedSDK.NewSessionWithOptions (freshProc "reports" [some errOwned]).ext
        = (.ok ⟨1⟩, [some errOwned]) ∧
    scriptedSDK.CreateBucket [some errOwned] ⟨1⟩ "reports" = (some errOwned, []) ∧
    (newS3Client scriptedSDK (freshProc "reports" [some errOwned])).value
        = some (none, some errOwned) ∧
    (getS3Client scriptedSDK (freshProc "reports" [some errOwned])).value
        = some (none, some errOwned) :=
  ⟨rfl, rfl,
   (newS3Client_createBucket_error scriptedSDK (freshProc "reports" [some errOwned])
      ⟨1⟩ [some errOwned] [] errOwned rfl rfl).1,
   (newS3Client_createBucket_error scriptedSDK (freshProc "reports" [some errOwned])
      ⟨1⟩ [some errOwned] [] errOwned rfl rfl).2 rfl⟩

/-! ## The object operations against an arbitrary service -/

/-- C8. `Write(data)` makes exactly one `Upload` call, for the client's bucket,
the handle's key and `data`, and returns what that call answers: nil when it
succeeds, otherwise its error, unmodified.  Nothing else is called. -/
theorem Write_one_upload (sdk : SDK σ) (k : String) (c : s3Client) (data : Bytes)
    (p : Proc σ) :
    s3Object.Write sdk ⟨k, some c⟩ data p =
      .ret (sdk.Upload p.ext c.uploader c.bucket k data).1
        { p with ext := (sdk.Upload p.ext c.uploader c.bucket k data).2
                 calls := p.calls ++ [.upload c.bucket k data] } := by
  simp only [s3Object.Write, s3Object.FileName]
  rcases h : sdk.Upload p.ext c.uploader c.bucket k data with ⟨_ | e, w⟩ <;> rfl

/-- C9. `Read` returns nil bytes with the error whenever `Download` answers an
error, whatever `Download` wrote into the buffer before; it returns the
downloaded bytes with a nil error exactly when `Download` answers no error.
On the map service a key that is not stored gives nil bytes and an error. -/
theorem Read_all_or_nothing (sdk : SDK σ) (k : String) (c : s3Client) (p : Proc σ) :
    (∀ e, (sdk.Download p.ext c.downloader c.bucket k).1.2 = some e →
      (s3Object.Read sdk ⟨k, some c⟩ p).value = some (none, some e)) ∧
    ((sdk.Download p.ext c.downloader c.bucket k).1.2 = none ↔
      (s3Object.Read sdk ⟨k, some c⟩ p).value =
        some (some (sdk.Download p.ext c.downloader c.bucket k).1.1, none)) ∧
    (∀ (refuse : String → String → Bytes → Option GoError) (q : Proc Store),
      q.ext c.bucket k = none →
      (s3Object.Read (mapSDK refuse) ⟨k, some c⟩ q).value
        = some (none, some errNoSuchKey)) := by
  refine ⟨?_, ?_, ?_⟩
  · intro e he
    simp only [s3Object.Read, s3Object.FileName]
    rcases h : sdk.Download p.ext c.downloader c.bucket k with ⟨⟨buf, _ | e1⟩, w⟩
    · rw [h] at he; cases he
    · rw [h] at he; cases he; rfl
  · simp only [s3Object.Read, s3Object.FileName]
    rcases h : sdk.Download p.ext c.downloader c.bucket k with ⟨⟨buf, _ | e1⟩, w⟩
    · simp [Outcome.value]
    · simp [Outcome.value]
  · intro refuse q hq
    simp only [s3Object.Read, s3Object.FileName, mapSDK, hq, Outcome.value]

/-- C7. `Exists` returns true if and only if the `GetObject` probe for the
client's bucket and the handle's key answers no error; for every error (the
code NoSuchKey, another provider code, no provider error at all) it returns
false. -/
theorem Exists_iff_probe_ok (sdk : SDK σ) (k : String) (c : s3Client) (p : Proc σ) :
    (s3Object.Exists sdk ⟨k, some c⟩ p).value
      = some (sdk.GetObject p.ext c.client c.bucket k).1.isNone := by
  simp only [s3Object.Exists, s3Object.FileName]
  rcases h : sdk.GetObject p.ext c.client c.bucket k with ⟨_ | e, w⟩ <;> rfl

/-! ## The singleton -/

/-- With `client == nil`, a session built and `CreateBucket` answering `r`,
`getS3Client` makes that one call, stores the result in both package variables
and returns it. -/
theorem getS3Client_nil (sdk : SDK σ) (p : Proc σ) (sess : Session) (w w1 : σ)
    (r : Option GoError) (hnil : p.client = none)
    (hs : sdk.NewSessionWithOptions p.ext = (.ok sess, w))
    (hc : sdk.CreateBucket w sess p.S3Bucket = (r, w1)) :
    getS3Client sdk p =
      match r with
      | some e =>
        .ret (none, some e)
          { p with client := none, s3err := some e, ext := w1
                   calls := p.calls ++ [.createBucket p.S3Bucket]
                   log := p.log ++ [createBucketLog p.S3Bucket e] }
      | none =>
        .ret (some ⟨p.allocs, sess, sess, sess, p.S3Bucket⟩, none)
          { p with client := some ⟨p.allocs, sess, sess, sess, p.S3Bucket⟩
                   s3err := none, ext := w1
                   calls := p.calls ++ [.createBucket p.S3Bucket]
                   allocs := p.allocs + 1 } := by
  cases r <;> simp only [getS3Client, hnil, newS3Client, hs, hc]

/-- With `client != nil`, `getS3Client` returns the client and a nil error and
changes nothing. -/
theorem getS3Client_some (sdk : SDK σ) (p : Proc σ) (c : s3Client)
    (h : p.client = some c) : getS3Client sdk p = .ret (some c, none) p := by
  simp only [getS3Client, h]

/-- Once `client != nil`, any number of `getS3Client` calls return the client
with a nil error and change nothing. -/
theorem getS3ClientTimes_some (sdk : SDK σ) (c : s3Client) (n : Nat) (p : Proc σ)
    (h : p.client = some c) :
    getS3ClientTimes sdk n p = .ret (List.replicate n (some c, none)) p := by
  induction n with
  | zero => rfl
  | succ n ih => simp only [getS3ClientTimes, getS3Client_some sdk p c h, ih, List.replicate]

/-- When `getS3Client` returns a nil error, the client it returns is not nil
and is the one in the package variable `client`. -/
theorem getS3Client_ok_client (sdk : SDK σ) (p p1 : Proc σ) (c : Option s3Client)
    (h : getS3Client sdk p = .ret (c, none) p1) :
    ∃ cl, c = some cl ∧ p1.client = some cl := by
  unfold getS3Client at h
  cases hc : p.client with
  | some c0 =>
    simp only [hc] at h
    cases h
    exact ⟨c0, rfl, hc⟩
  | none =>
    simp only [hc, newS3Client] at h
    rcases hs : sdk.NewSessionWithOptions p.ext with ⟨_ | sess, w⟩
    · simp only [hs] at h; cases h
    · simp only [hs] at h
      rcases hb : sdk.CreateBucket w sess p.S3Bucket with ⟨_ | e, w1⟩
      · simp only [hb] at h
        cases h
        exact ⟨_, rfl, rfl⟩
      · simp only [hb] at h
        cases h

/-- C2. When the first `CreateBucket` call succeeds, every run of one or more
(in particular two or more) `getS3Client` calls returns the same client each
time, the one allocated by the first call, with a nil error, and the whole run
makes exactly one `CreateBucket` call and allocates exactly one client. -/
theorem getS3Client_singleton (sdk : SDK σ) (p : Proc σ) (sess : Session) (w w1 : σ)
    (n : Nat) (hnil : p.client = none)
    (hs : sdk.NewSessionWithOptions p.ext = (.ok sess, w))
    (hc : sdk.CreateBucket w sess p.S3Bucket = (none, w1)) :
    (getS3ClientTimes sdk (n + 1) p).value
      = some (List.replicate (n + 1)
          (some ⟨p.allocs, sess, sess, sess, p.S3Bucket⟩, none)) ∧
    (getS3ClientTimes sdk (n + 1) p).state.client
      = some ⟨p.allocs, sess, sess, sess, p.S3Bucket⟩ ∧
    (getS3ClientTimes sdk (n + 1) p).state.calls
      = p.calls ++ [.createBucket p.S3Bucket] ∧
    (getS3ClientTimes sdk (n + 1) p).state.allocs = p.allocs + 1 := by
  have h1 := getS3Client_nil sdk p sess w w1 none hnil hs hc
  simp only at h1
  have h2 := getS3ClientTimes_some sdk ⟨p.allocs, sess, sess, sess, p.S3Bucket⟩ n
    { p with client := some ⟨p.allocs, sess, sess, sess, p.S3Bucket⟩
             s3err := none, ext := w1
             calls := p.calls ++ [.createBucket p.S3Bucket]
             allocs := p.allocs + 1 } rfl
  simp only [getS3ClientTimes, h1, h2, Outcome.value, Outcome.state, List.replicate,
    and_self]

/-- C2 at a fresh process on the scripted service that accepts the bucket:
three calls. -/
theorem getS3Client_singleton_witness :
    (freshProc "reports" ([] : List (Option GoError))).client = none ∧
    (getS3ClientTimes scriptedSDK 3 (freshProc "reports" [])).value
      = some [(some ⟨0, ⟨1⟩, ⟨1⟩, ⟨1⟩, "reports"⟩, none),
              (some ⟨0, ⟨1⟩, ⟨1⟩, ⟨1⟩, "reports"⟩, none),
              (some ⟨0, ⟨1⟩, ⟨1⟩, ⟨1⟩, "reports"⟩, none)] ∧
    (getS3ClientTimes scriptedSDK 3 (freshProc "reports" [])).state.calls
      = [.createBucket "reports"] :=
  ⟨rfl,
   (getS3Client_singleton scriptedSDK (freshProc "reports" []) ⟨1⟩ [] [] 2 rfl rfl rfl).1,
   (getS3Client_singleton scriptedSDK (freshProc "reports" []) ⟨1⟩ [] [] 2 rfl rfl rfl).2.2.1⟩

/-- C1, as the code behaves. A failed initialisation is not cached: when the
first `CreateBucket` call fails with `e`, that `getS3Client` call returns a nil
client with `e`, stores `e` in `s3err` and leaves `client` nil; the next
`getS3Client` call builds a session and calls `CreateBucket` again, and returns
what that second attempt gives: a nil client with the second error, or the
newly allocated client with a nil error.  `NewS3Object` follows it. -/
theorem getS3Client_failure_retried (sdk : SDK σ) (p : Proc σ) (sess1 sess2 : Session)
    (w1 w2 w3 w4 : σ) (e : GoError) (r : Option GoError) (k : String)
    (hnil : p.client = none)
    (hs1 : sdk.NewSessionWithOptions p.ext = (.ok sess1, w1))
    (hc1 : sdk.CreateBucket w1 sess1 p.S3Bucket = (some e, w2))
    (hs2 : sdk.NewSessionWithOptions w2 = (.ok sess2, w3))
    (hc2 : sdk.CreateBucket w3 sess2 p.S3Bucket = (r, w4)) :
    (getS3Client sdk p).value = some (none, some e) ∧
    (getS3Client sdk p).state.client = none ∧
    (getS3Client sdk p).state.s3err = some e ∧
    (getS3Client sdk p).state.calls = p.calls ++ [.createBucket p.S3Bucket] ∧
    (getS3Client sdk (getS3Client sdk p).state).value
      = some (match r with
          | some e2 => (none, some e2)
          | none => (some ⟨p.allocs, sess2, sess2, sess2, p.S3Bucket⟩, none)) ∧
    (getS3Client sdk (getS3Client sdk p).state).state.calls
      = p.calls ++ [.createBucket p.S3Bucket, .createBucket p.S3Bucket] ∧
    (NewS3Object sdk k (getS3Client sdk p).state).value
      = some (match r with
          | some e2 => (none, some e2)
          | none => (some ⟨k, some ⟨p.allocs, sess2, sess2, sess2, p.S3Bucket⟩⟩, none)) := by
  have h1 := getS3Client_nil sdk p sess1 w1 w2 (some e) hnil hs1 hc1
  simp only at h1
  have h2 := getS3Client_nil sdk
    { p with client := none, s3err := some e, ext := w2
             calls := p.calls ++ [.createBucket p.S3Bucket]
             log := p.log ++ [createBucketLog p.S3Bucket e] }
    sess2 w3 w4 r rfl hs2 hc2
  rw [h1]
  simp only [Outcome.state, Outcome.value, NewS3Object, h2, true_and]
  cases r <;> simp [Outcome.value, Outcome.state]

/-- C1 at the scripted service whose first two `CreateBucket` answers are
"already owned by you": the second call asks the service again. -/
theorem getS3Client_failure_retried_witness :
    (freshProc "reports" [some errOwned, some errOwned]).client = none ∧
    (getS3Client scriptedSDK (freshProc "reports" [some errOwned, some errOwned])).value
      = some (none, some errOwned) ∧
    (getS3Client scriptedSDK
      (getS3Client scriptedSDK
        (freshProc "reports" [some errOwned, some errOwned])).state).state.calls
      = [.createBucket "reports", .createBucket "reports"] :=
  ⟨rfl,
   (getS3Client_failure_retried scriptedSDK
      (freshProc "reports" [some errOwned, some errOwned]) ⟨1⟩ ⟨1⟩
      [some errOwned, some errOwned] [some errOwned] [some errOwned] []
      errOwned (some errOwned) "report-42.pdf" rfl rfl rfl rfl rfl).1,
   (getS3Client_failure_retried scriptedSDK
      (freshProc "reports" [some errOwned, some errOwned]) ⟨1⟩ ⟨1⟩
      [some errOwned, some errOwned] [some errOwned] [some errOwned] []
      errOwned (some errOwned) "report-42.pdf" rfl rfl rfl rfl rfl).2.2.2.2.2.1⟩

/-- C1 is false as stated. On the scripted service that answers "already owned
by you" to the first `CreateBucket` call of a fresh process and accepts the
second, the first `getS3Client` call returns a nil client with that error, and
the second call does not return the error again: it makes a second
`CreateBucket` call and returns a client with a nil error; so does
`NewS3Object`. -/
theorem getS3Client_failure_not_cached :
    (getS3Client scriptedSDK (freshProc "reports" [some errOwned])).value
      = some (none, some errOwned) ∧
    (getS3Client scriptedSDK
      (getS3Client scriptedSDK (freshProc "reports" [some errOwned])).state).value
      = some (some ⟨0, ⟨1⟩, ⟨1⟩, ⟨1⟩, "reports"⟩, none) ∧
    (getS3Client scriptedSDK
      (getS3Client scriptedSDK (freshProc "reports" [some errOwned])).state).state.calls
      = [.createBucket "reports", .createBucket "reports"] ∧
    (NewS3Object scriptedSDK "report-42.pdf"
      (getS3Client scriptedSDK (freshProc "reports" [some errOwned])).state).value
      = some (some ⟨"report-42.pdf", some ⟨0, ⟨1⟩, ⟨1⟩, ⟨1⟩, "reports"⟩⟩, none) ∧
    (getS3Client scriptedSDK
      (getS3Client scriptedSDK (freshProc "reports" [some errOwned])).state).value
      ≠ some (none, some errOwned) ∧
    (getS3Client scriptedSDK
      (getS3Client scriptedSDK (freshProc "reports" [some errOwned])).state).state.calls
      ≠ (getS3Client scriptedSDK (freshProc "reports" [some errOwned])).state.calls :=
  ⟨rfl, rfl, rfl, rfl, by decide, by decide⟩

/-! ## Handles -/

/-- C6. `NewS3Object(k)` returns what `getS3Client` returns: when `getS3Client`
returns an error it returns a nil handle and that error; when `getS3Client`
returns a nil error it returns a handle whose `FileName()` is `k` and whose
client is the client in the package variable, which is not nil.  The state it
leaves is the one `getS3Client` leaves, for every `k`, the empty key too. -/
theorem NewS3Object_follows_getS3Client (sdk : SDK σ) (k : String) (p p1 : Proc σ)
    (c : Option s3Client) (err : Option GoError)
    (h : getS3Client sdk p = .ret (c, err) p1) :
    (∀ e, err = some e → NewS3Object sdk k p = .ret (none, some e) p1) ∧
    (err = none → ∃ cl, p1.client = some cl ∧
      NewS3Object sdk k p = .ret (some ⟨k, some cl⟩, none) p1 ∧
      (s3Object.mk k (some cl)).FileName = k) ∧
    ((NewS3Object sdk k p).value.map Prod.snd = some err) ∧
    (NewS3Object sdk "" p).state = p1 ∧ (NewS3Object sdk k p).state = p1 := by
  refine ⟨?_, ?_, ?_, ?_, ?_⟩
  · intro e he
    subst he
    simp only [NewS3Object, h]
  · intro he
    subst he
    obtain ⟨cl, hcl, hp⟩ := getS3Client_ok_client sdk p p1 c h
    subst hcl
    exact ⟨cl, hp, by simp only [NewS3Object, h], rfl⟩
  · cases err <;> simp only [NewS3Object, h, Outcome.value, Option.map]
  · cases err <;> simp only [NewS3Object, h, Outcome.state]
  · cases err <;> simp only [NewS3Object, h, Outcome.state]

/-- C6 at a fresh process: on the scripted service that accepts the bucket the
handle for "report-42.pdf" holds the new client. -/
theorem NewS3Object_follows_getS3Client_witness :
    getS3Client scriptedSDK (freshProc "reports" [])
      = .ret (some ⟨0, ⟨1⟩, ⟨1⟩, ⟨1⟩, "reports"⟩, none)
          { freshProc "reports" [] with
              client := some ⟨0, ⟨1⟩, ⟨1⟩, ⟨1⟩, "reports"⟩
              calls := [.createBucket "reports"], allocs := 1 } ∧
    (NewS3Object scriptedSDK "report-42.pdf" (freshProc "reports" [])).value.map Prod.snd
      = some none ∧
    (NewS3Object scriptedSDK "report-42.pdf" (freshProc "reports" [])).state
      = { freshProc "reports" [] with
            client := some ⟨0, ⟨1⟩, ⟨1⟩, ⟨1⟩, "reports"⟩
            calls := [.createBucket "reports"], allocs := 1 } :=
  ⟨rfl,
   (NewS3Object_follows_getS3Client scriptedSDK "report-42.pdf" (freshProc "reports" [])
      _ _ _ rfl).2.2.1,
   (NewS3Object_follows_getS3Client scriptedSDK "report-42.pdf" (freshProc "reports" [])
      _ _ _ rfl).2.2.2.2⟩

/-- C10. A handle made by `NewS3Object(k)` on a process without a client holds
the key `k` and a client whose bucket is the configured name at that moment,
the name `CreateBucket` was called with.  Whatever the configured name is
later (`b`), and in every later state `q`, `Write`, `Read` and `Exists` on the
handle each make exactly one SDK call, and that call is made for that bucket
and the key `k`: what the operation returns and the external state it leaves
are the answer of `Upload`, `Download`, `GetObject` at (that bucket, `k`), not
at the bucket configured now.  The operations leave the package variable
`client` and the configuration as they were.  The same equations hold for
every handle: the pair addressed is the bucket of its client and its key. -/
theorem operations_address_client_bucket (sdk : SDK σ) (k : String) (p0 p1 : Proc σ)
    (o : s3Object) (h : NewS3Object sdk k p0 = .ret (some o, none) p1)
    (hnil : p0.client = none) (b : String) (data : Bytes) (q : Proc σ) :
    o.FileName = k ∧
    (∃ c, o.s3client = some c ∧ p1.client = some c ∧ c.bucket = p0.S3Bucket) ∧
    p1.calls = p0.calls ++ [.createBucket p0.S3Bucket] ∧
    (o.Write sdk data { q with S3Bucket := b }).state.calls
      = q.calls ++ [.upload p0.S3Bucket k data] ∧
    (o.Read sdk { q with S3Bucket := b }).state.calls
      = q.calls ++ [.download p0.S3Bucket k] ∧
    (o.Exists sdk { q with S3Bucket := b }).state.calls
      = q.calls ++ [.getObject p0.S3Bucket k] ∧
    (o.Write sdk data { q with S3Bucket := b }).state.client = q.client ∧
    (o.Read sdk { q with S3Bucket := b }).state.client = q.client ∧
    (o.Exists sdk { q with S3Bucket := b }).state.client = q.client ∧
    (o.Write sdk data { q with S3Bucket := b }).state.S3Bucket = b ∧
    (o.Read sdk { q with S3Bucket := b }).state.S3Bucket = b ∧
    (o.Exists sdk { q with S3Bucket := b }).state.S3Bucket = b ∧
    (∀ (k2 : String) (c2 : s3Client),
      (s3Object.Write sdk ⟨k2, some c2⟩ data q).state.calls
        = q.calls ++ [.upload c2.bucket k2 data] ∧
      (s3Object.Read sdk ⟨k2, some c2⟩ q).state.calls
        = q.calls ++ [.download c2.bucket k2] ∧
      (s3Object.Exists sdk ⟨k2, some c2⟩ q).state.calls
        = q.calls ++ [.getObject c2.bucket k2]) ∧
    (∀ c, o.s3client = some c →
      o.Write sdk data { q with S3Bucket := b } =
        .ret (sdk.Upload q.ext c.uploader p0.S3Bucket k data).1
          { q with S3Bucket := b
                   ext := (sdk.Upload q.ext c.uploader p0.S3Bucket k data).2
                   calls := q.calls ++ [.upload p0.S3Bucket k data] } ∧
      o.Read sdk { q with S3Bucket := b } =
        .ret
          (match (sdk.Download q.ext c.downloader p0.S3Bucket k).1.2 with
            | some e => (none, some e)
            | none => (some (sdk.Download q.ext c.downloader p0.S3Bucket k).1.1, none))
          { q with S3Bucket := b
                   ext := (sdk.Download q.ext c.downloader p0.S3Bucket k).2
                   calls := q.calls ++ [.download p0.S3Bucket k] } ∧
      o.Exists sdk { q with S3Bucket := b } =
        .ret (sdk.GetObject q.ext c.client p0.S3Bucket k).1.isNone
          { q with S3Bucket := b
                   ext := (sdk.GetObject q.ext c.client p0.S3Bucket k).2
                   calls := q.calls ++ [.getObject p0.S3Bucket k]
                   log := match (sdk.GetObject q.ext c.client p0.S3Bucket k).1 with
                     | some e => q.log ++ [existsLog k e]
                     | none => q.log }) ∧
    (∀ (k2 : String) (c2 : s3Client),
      s3Object.Write sdk ⟨k2, some c2⟩ data q =
        .ret (sdk.Upload q.ext c2.uploader c2.bucket k2 data).1
          { q with ext := (sdk.Upload q.ext c2.uploader c2.bucket k2 data).2
                   calls := q.calls ++ [.upload c2.bucket k2 data] } ∧
      s3Object.Read sdk ⟨k2, some c2⟩ q =
        .ret
          (match (sdk.Download q.ext c2.downloader c2.bucket k2).1.2 with
            | some e => (none, some e)
            | none => (some (sdk.Download q.ext c2.downloader c2.bucket k2).1.1, none))
          { q with ext := (sdk.Download q.ext c2.downloader c2.bucket k2).2
                   calls := q.calls ++ [.download c2.bucket k2] } ∧
      s3Object.Exists sdk ⟨k2, some c2⟩ q =
        .ret (sdk.GetObject q.ext c2.client c2.bucket k2).1.isNone
          { q with ext := (sdk.GetObject q.ext c2.client c2.bucket k2).2
                   calls := q.calls ++ [.getObject c2.bucket k2]
                   log := match (sdk.GetObject q.ext c2.client c2.bucket k2).1 with
                     | some e => q.log ++ [existsLog k2 e]
                     | none => q.log }) := by
  have hgen : ∀ (k2 : String) (c2 : s3Client) (r : Proc σ),
      s3Object.Write sdk ⟨k2, some c2⟩ data r =
        .ret (sdk.Upload r.ext c2.uploader c2.bucket k2 data).1
          { r with ext := (sdk.Upload r.ext c2.uploader c2.bucket k2 data).2
                   calls := r.calls ++ [.upload c2.bucket k2 data] } ∧
      s3Object.Read sdk ⟨k2, some c2⟩ r =
        .ret
          (match (sdk.Download r.ext c2.downloader c2.bucket k2).1.2 with
            | some e => (none, some e)
            | none => (some (sdk.Download r.ext c2.downloader c2.bucket k2).1.1, none))
          { r with ext := (sdk.Download r.ext c2.downloader c2.bucket k2).2
                   calls := r.calls ++ [.download c2.bucket k2] } ∧
      s3Object.Exists sdk ⟨k2, some c2⟩ r =
        .ret (sdk.GetObject r.ext c2.client c2.bucket k2).1.isNone
          { r with ext := (sdk.GetObject r.ext c2.client c2.bucket k2).2
                   calls := r.calls ++ [.getObject c2.bucket k2]
                   log := match (sdk.GetObject r.ext c2.client c2.bucket k2).1 with
                     | some e => r.log ++ [existsLog k2 e]
                     | none => r.log } := by
    intro k2 c2 r
    simp only [s3Object.Write, s3Object.Read, s3Object.Exists, s3Object.FileName]
    refine ⟨?_, ?_, ?_⟩
    · rcases sdk.Upload r.ext c2.uploader c2.bucket k2 data with ⟨_ | e, w2⟩ <;> rfl
    · rcases sdk.Download r.ext c2.downloader c2.bucket k2 with ⟨⟨buf, _ | e⟩, w2⟩ <;> rfl
    · rcases sdk.GetObject r.ext c2.client c2.bucket k2 with ⟨_ | e, w2⟩ <;> rfl
  simp only [NewS3Object, getS3Client, hnil, newS3Client] at h
  rcases hs : sdk.NewSessionWithOptions p0.ext with ⟨_ | sess, w⟩
  · simp only [hs] at h; cases h
  · simp only [hs] at h
    rcases hb : sdk.CreateBucket w sess p0.S3Bucket with ⟨_ | e, w1⟩
    · simp only [hb] at h
      cases h
      obtain ⟨hW, hR, hE⟩ := hgen k ⟨p0.allocs, sess, sess, sess, p0.S3Bucket⟩
        { q with S3Bucket := b }
      refine ⟨rfl, ⟨_, rfl, rfl, rfl⟩, rfl, ?_, ?_, ?_, ?_, ?_, ?_, ?_, ?_, ?_, ?_, ?_, ?_⟩
      · rw [hW]; rfl
      · rw [hR]; rfl
      · rw [hE]; rfl
      · rw [hW]; rfl
      · rw [hR]; rfl
      · rw [hE]; rfl
      · rw [hW]; rfl
      · rw [hR]; rfl
      · rw [hE]; rfl
      · intro k2 c2
        obtain ⟨hW2, hR2, hE2⟩ := hgen k2 c2 q
        exact ⟨by rw [hW2]; rfl, by rw [hR2]; rfl, by rw [hE2]; rfl⟩
      · intro c hc
        cases hc
        exact ⟨hW, hR, hE⟩
      · intro k2 c2
        exact hgen k2 c2 q
    · simp only [hb] at h
      cases h

/-- C10 at a fresh process on the map service configured for "reports", the
configuration changed to "other" after the handle was made: the bytes are
stored under "reports", nothing is stored under "other", and they are read
back and found from there. -/
theorem operations_address_client_bucket_witness :
    NewS3Object (mapSDK refuseEmptyKey) "report-42.pdf" (freshProc "reports" emptyStore)
      = .ret (some ⟨"report-42.pdf", some ⟨0, ⟨1⟩, ⟨1⟩, ⟨1⟩, "reports"⟩⟩, none)
          { freshProc "reports" emptyStore with
              client := some ⟨0, ⟨1⟩, ⟨1⟩, ⟨1⟩, "reports"⟩
              calls := [.createBucket "reports"], allocs := 1 } ∧
    (freshProc "reports" emptyStore).client = none ∧
    s3Object.Write (mapSDK refuseEmptyKey)
        ⟨"report-42.pdf", some ⟨0, ⟨1⟩, ⟨1⟩, ⟨1⟩, "reports"⟩⟩ [0x25, 0x50, 0x44, 0x46]
        { freshProc "reports" emptyStore with S3Bucket := "other" }
      = .ret none
          { freshProc "other"
              (emptyStore.put "reports" "report-42.pdf" [0x25, 0x50, 0x44, 0x46]) with
            calls := [.upload "reports" "report-42.pdf" [0x25, 0x50, 0x44, 0x46]] } ∧
    (s3Object.Write (mapSDK refuseEmptyKey)
        ⟨"report-42.pdf", some ⟨0, ⟨1⟩, ⟨1⟩, ⟨1⟩, "reports"⟩⟩ [0x25, 0x50, 0x44, 0x46]
        { freshProc "reports" emptyStore with S3Bucket := "other" }).state.ext
        "reports" "report-42.pdf" = some [0x25, 0x50, 0x44, 0x46] ∧
    (s3Object.Write (mapSDK refuseEmptyKey)
        ⟨"report-42.pdf", some ⟨0, ⟨1⟩, ⟨1⟩, ⟨1⟩, "reports"⟩⟩ [0x25, 0x50, 0x44, 0x46]
        { freshProc "reports" emptyStore with S3Bucket := "other" }).state.ext
        "other" "report-42.pdf" = none ∧
    s3Object.Read (mapSDK refuseEmptyKey)
        ⟨"report-42.pdf", some ⟨0, ⟨1⟩, ⟨1⟩, ⟨1⟩, "reports"⟩⟩
        { freshProc "reports"
            (emptyStore.put "reports" "report-42.pdf" [0x25, 0x50, 0x44, 0x46]) with
          S3Bucket := "other" }
      = .ret (some [0x25, 0x50, 0x44, 0x46], none)
          { freshProc "other"
              (emptyStore.put "reports" "report-42.pdf" [0x25, 0x50, 0x44, 0x46]) with
            calls := [.download "reports" "report-42.pdf"] } ∧
    s3Object.Exists (mapSDK refuseEmptyKey)
        ⟨"report-42.pdf", some ⟨0, ⟨1⟩, ⟨1⟩, ⟨1⟩, "reports"⟩⟩
        { freshProc "reports"
            (emptyStore.put "reports" "report-42.pdf" [0x25, 0x50, 0x44, 0x46]) with
          S3Bucket := "other" }
      = .ret true
          { freshProc "other"
              (emptyStore.put "reports" "report-42.pdf" [0x25, 0x50, 0x44, 0x46]) with
            calls := [.getObject "reports" "report-42.pdf"] } :=
  ⟨rfl, rfl,
   ((operations_address_client_bucket (mapSDK refuseEmptyKey) "report-42.pdf"
      (freshProc "reports" emptyStore) _ _ rfl rfl "other" [0x25, 0x50, 0x44, 0x46]
      (freshProc "reports" emptyStore)).2.2.2.2.2.2.2.2.2.2.2.2.2.1 _ rfl).1,
   rfl, rfl,
   ((operations_address_client_bucket (mapSDK refuseEmptyKey) "report-42.pdf"
      (freshProc "reports" emptyStore) _ _ rfl rfl "other" [0x25, 0x50, 0x44, 0x46]
      (freshProc "reports"
        (emptyStore.put "reports" "report-42.pdf" [0x25, 0x50, 0x44, 0x46]))).2.2.2.2.2.2.2.2.2.2.2.2.2.1
      _ rfl).2.1,
   ((operations_address_client_bucket (mapSDK refuseEmptyKey) "report-42.pdf"
      (freshProc "reports" emptyStore) _ _ rfl rfl "other" [0x25, 0x50, 0x44, 0x46]
      (freshProc "reports"
        (emptyStore.put "reports" "report-42.pdf" [0x25, 0x50, 0x44, 0x46]))).2.2.2.2.2.2.2.2.2.2.2.2.2.1
      _ rfl).2.2⟩

/-! ## The map service -/

/-- On the map service a `Write` that returns nil leaves the body stored under
the client's bucket and the key. -/
theorem Write_ok_stored (refuse : String → String → Bytes → Option GoError)
    (k : String) (c : s3Client) (data : Bytes) (p p1 : Proc Store)
    (h : s3Object.Write (mapSDK refuse) ⟨k, some c⟩ data p = .ret none p1) :
    p1.ext c.bucket k = some data := by
  simp only [s3Object.Write, s3Object.FileName, mapSDK] at h
  cases hr : refuse c.bucket k data with
  | some e => simp only [hr] at h; cases h
  | none =>
    simp only [hr] at h
    cases h
    simp [Store.put]

/-- C3. On the map service, for every key (the non-empty ones in particular),
every payload, the empty one too, and every prior content of the store: when
`Write(data)` on a handle for the key returns nil, `Read` on a handle for the
same key right after returns exactly `data` with a nil error. -/
theorem Write_then_Read (refuse : String → String → Bytes → Option GoError)
    (k : String) (c : s3Client) (data : Bytes) (p p1 : Proc Store)
    (h : s3Object.Write (mapSDK refuse) ⟨k, some c⟩ data p = .ret none p1) :
    (s3Object.Read (mapSDK refuse) ⟨k, some c⟩ p1).value = some (some data, none) := by
  have hst := Write_ok_stored refuse k c data p p1 h
  simp only [s3Object.Read, s3Object.FileName, mapSDK, hst, Outcome.value]

/-- C3 at the scenario of the specification, the key already holding another
payload: the new payload is read back. -/
theorem Write_then_Read_witness :
    s3Object.Write (mapSDK refuseEmptyKey)
        ⟨"report-42.pdf", some ⟨0, ⟨1⟩, ⟨1⟩, ⟨1⟩, "reports"⟩⟩ [0x25, 0x50, 0x44, 0x46]
        (freshProc "reports" (emptyStore.put "reports" "report-42.pdf" [1, 2, 3]))
      = .ret none
          { freshProc "reports"
              ((emptyStore.put "reports" "report-42.pdf" [1, 2, 3]).put
                "reports" "report-42.pdf" [0x25, 0x50, 0x44, 0x46]) with
            calls := [.upload "reports" "report-42.pdf" [0x25, 0x50, 0x44, 0x46]] } ∧
    (s3Object.Read (mapSDK refuseEmptyKey)
        ⟨"report-42.pdf", some ⟨0, ⟨1⟩, ⟨1⟩, ⟨1⟩, "reports"⟩⟩
        { freshProc "reports"
            ((emptyStore.put "reports" "report-42.pdf" [1, 2, 3]).put
              "reports" "report-42.pdf" [0x25, 0x50, 0x44, 0x46]) with
          calls := [.upload "reports" "report-42.pdf" [0x25, 0x50, 0x44, 0x46]] }).value
      = some (some [0x25, 0x50, 0x44, 0x46], none) :=
  ⟨rfl,
   Write_then_Read refuseEmptyKey "report-42.pdf" ⟨0, ⟨1⟩, ⟨1⟩, ⟨1⟩, "reports"⟩
     [0x25, 0x50, 0x44, 0x46]
     (freshProc "reports" (emptyStore.put "reports" "report-42.pdf" [1, 2, 3])) _ rfl⟩

/-- On the map service an operation that is not a `Write` to `k` returning nil
leaves `k` not stored when it was not stored. -/
theorem Op_run_absent (refuse : String → String → Bytes → Option GoError)
    (k : String) (c : s3Client) (op : Op) (p : Proc Store)
    (h0 : p.ext c.bucket k = none)
    (hw : op.wrote (mapSDK refuse) c k p = false) :
    (op.run (mapSDK refuse) c p).ext c.bucket k = none := by
  cases op with
  | write key data =>
    simp only [Op.wrote, Op.run, s3Object.Write, s3Object.FileName, mapSDK] at hw ⊢
    cases hr : refuse c.bucket key data with
    | some e => simpa only [hr, Outcome.state] using h0
    | none =>
      simp only [hr, Outcome.value, Outcome.state, Store.put] at hw ⊢
      have hne : ¬ key = k := by simpa using hw
      have hne2 : ¬ k = key := fun h => hne h.symm
      simp [hne2, h0]
  | read key =>
    simp only [Op.run, s3Object.Read, s3Object.FileName, mapSDK]
    cases hs : p.ext c.bucket key <;> simpa only [Outcome.state] using h0
  | probe key =>
    simp only [Op.run, s3Object.Exists, s3Object.FileName, mapSDK]
    cases hs : p.ext c.bucket key <;> simpa only [Outcome.state] using h0

/-- On the map service, when no `Write` to `k` returns nil while the operations
run, `k` is still not stored after them. -/
theorem runOps_absent (refuse : String → String → Bytes → Option GoError)
    (k : String) (c : s3Client) (ops : List Op) (p : Proc Store)
    (h0 : p.ext c.bucket k = none)
    (hw : anyWrote (mapSDK refuse) c k ops p = false) :
    (runOps (mapSDK refuse) c ops p).ext c.bucket k = none := by
  induction ops generalizing p with
  | nil => exact h0
  | cons op ops ih =>
    simp only [anyWrote, Bool.or_eq_false_iff] at hw
    exact ih _ (Op_run_absent refuse k c op p h0 hw.1) hw.2

/-- On the map service `Exists` tells whether the key is stored. -/
theorem Exists_mapSDK (refuse : String → String → Bytes → Option GoError)
    (k : String) (c : s3Client) (q : Proc Store) :
    (s3Object.Exists (mapSDK refuse) ⟨k, some c⟩ q).value
      = some (q.ext c.bucket k).isSome := by
  simp only [s3Object.Exists, s3Object.FileName, mapSDK]
  cases q.ext c.bucket k <;> rfl

/-- C4. On the map service, starting with the key not stored: after any
operations on handles of the client among which no `Write` to the key returned
nil, `Exists` on a handle for the key returns false; and in every state, right
after a `Write` to the key returns nil, `Exists` returns true. -/
theorem Exists_before_and_after_Write (refuse : String → String → Bytes → Option GoError)
    (k : String) (c : s3Client) (ops : List Op) (p : Proc Store)
    (h0 : p.ext c.bucket k = none)
    (hw : anyWrote (mapSDK refuse) c k ops p = false) :
    (s3Object.Exists (mapSDK refuse) ⟨k, some c⟩
      (runOps (mapSDK refuse) c ops p)).value = some false ∧
    (∀ (data : Bytes) (q q1 : Proc Store),
      s3Object.Write (mapSDK refuse) ⟨k, some c⟩ data q = .ret none q1 →
      (s3Object.Exists (mapSDK refuse) ⟨k, some c⟩ q1).value = some true) := by
  refine ⟨?_, ?_⟩
  · rw [Exists_mapSDK, runOps_absent refuse k c ops p h0 hw]
    rfl
  · intro data q q1 h
    rw [Exists_mapSDK, Write_ok_stored refuse k c data q q1 h]
    rfl

/-- C4 at an empty store: a refused `Write` to the key, a `Write` to another
key, a probe and a `Read` leave `Exists` false; the accepted `Write` makes it
true. -/
theorem Exists_before_and_after_Write_witness :
    (freshProc "reports" emptyStore).ext "reports" "report-42.pdf" = none ∧
    anyWrote (mapSDK refuseEmptyKey) ⟨0, ⟨1⟩, ⟨1⟩, ⟨1⟩, "reports"⟩ "report-42.pdf"
      [.write "report-42.pdf" [1, 2, 3, 4, 5], .write "a.pdf" [1],
       .probe "report-42.pdf", .read "report-42.pdf"]
      (freshProc "reports" emptyStore) = false ∧
    (s3Object.Exists (mapSDK refuseEmptyKey)
      ⟨"report-42.pdf", some ⟨0, ⟨1⟩, ⟨1⟩, ⟨1⟩, "reports"⟩⟩
      (runOps (mapSDK refuseEmptyKey) ⟨0, ⟨1⟩, ⟨1⟩, ⟨1⟩, "reports"⟩
        [.write "report-42.pdf" [1, 2, 3, 4, 5], .write "a.pdf" [1],
         .probe "report-42.pdf", .read "report-42.pdf"]
        (freshProc "reports" emptyStore))).value = some false ∧
    (s3Object.Exists (mapSDK refuseEmptyKey)
      ⟨"report-42.pdf", some ⟨0, ⟨1⟩, ⟨1⟩, ⟨1⟩, "reports"⟩⟩
      (s3Object.Write (mapSDK refuseEmptyKey)
        ⟨"report-42.pdf", some ⟨0, ⟨1⟩, ⟨1⟩, ⟨1⟩, "reports"⟩⟩ [0x25, 0x50, 0x44, 0x46]
        (freshProc "reports" emptyStore)).state).value = some true :=
  ⟨rfl, rfl,
   (Exists_before_and_after_Write refuseEmptyKey "report-42.pdf"
      ⟨0, ⟨1⟩, ⟨1⟩, ⟨1⟩, "reports"⟩
      [.write "report-42.pdf" [1, 2, 3, 4, 5], .write "a.pdf" [1],
       .probe "report-42.pdf", .read "report-42.pdf"]
      (freshProc "reports" emptyStore) rfl rfl).1,
   (Exists_before_and_after_Write refuseEmptyKey "report-42.pdf"
      ⟨0, ⟨1⟩, ⟨1⟩, ⟨1⟩, "reports"⟩ [] (freshProc "reports" emptyStore) rfl rfl).2
      [0x25, 0x50, 0x44, 0x46] (freshProc "reports" emptyStore) _ rfl⟩

/-- C9 at an empty store of the map service, and at a download that fails
after two bytes were written: nil bytes and the error both times. -/
theorem Read_all_or_nothing_witness :
    (freshProc "reports" emptyStore).ext "reports" "report-42.pdf" = none ∧
    (s3Object.Read (mapSDK refuseEmptyKey)
      ⟨"report-42.pdf", some ⟨0, ⟨1⟩, ⟨1⟩, ⟨1⟩, "reports"⟩⟩
      (freshProc "reports" emptyStore)).value = some (none, some errNoSuchKey) ∧
    (s3Object.Read brokenDownloadSDK
      ⟨"report-42.pdf", some ⟨0, ⟨1⟩, ⟨1⟩, ⟨1⟩, "reports"⟩⟩
      (freshProc "reports" ())).value
      = some (none, some (.plain "read: connection reset by peer")) :=
  ⟨rfl,
   (Read_all_or_nothing (mapSDK refuseEmptyKey) "report-42.pdf"
      ⟨0, ⟨1⟩, ⟨1⟩, ⟨1⟩, "reports"⟩ (freshProc "reports" emptyStore)).2.2
      refuseEmptyKey (freshProc "reports" emptyStore) rfl,
   (Read_all_or_nothing brokenDownloadSDK "report-42.pdf"
      ⟨0, ⟨1⟩, ⟨1⟩, ⟨1⟩, "reports"⟩ (freshProc "reports" ())).1 _ rfl⟩

end Storage
